import Mathlib

/-!
Shallow embedding of the commit-scanning and caching engine of
`update_counts.py` (the single source file of this repository), together with
theorems settling the specification claims about it.

Modelling conventions:
- Python strings are Lean `String`s; the string-splitting primitives used by
  the script (`str.split("\n")`, `str.split(" ")`, `str.split(":")`,
  `str.split()`) are implemented over `String.data` (`List Char`) so that
  they compute by kernel reduction, with the same semantics as Python for
  single-character separators.
- Fallible Python code (failed `assert`, `IndexError` from indexing an empty
  list, `ValueError` from `int()` or `dict()`, `subprocess.run(check=True)`
  on a failing command) is modelled with `Except PyError`.
- External processes are inputs: a finished `subprocess.run` is a `Subproc`
  value (exit code and captured stdout); during the scan, the composite
  effect "checkout commit, then `git grep` a regex" on the happy path is a
  function argument `grep : commit → regex → ignored-files → count`, and the
  side effects the scan performs (checkouts, counter invocations, cache
  writes, cache saves) are recorded explicitly in a `ScanState`.
- The Python `dict` `cache` (insertion ordered, unique keys) is an
  association list `Cache`; `findVal` models `cache[k]` / `k in cache`.
-/

namespace UpdateCounts

/-- Error outcomes of the fallible Python code paths in the script: a failed
`assert`, an `IndexError` from `lines[-1]` on an empty list, a `ValueError`
from `int()` or from `dict()` on a malformed pair, and the
`CalledProcessError` raised by `subprocess.run(..., check=True)` when the
command exits nonzero. -/
inductive PyError where
  | assertionError
  | indexError
  | valueError
  | calledProcessError
  deriving DecidableEq, Repr

/-- Mirrors `SERENITY_DIR = "serenity/"` (line 9). -/
def SERENITY_DIR : String := "serenity/"

/-- Mirrors `SAVE_CACHE_INV_FREQ = 50` (line 14): save the cache only every X
commits, instead of after every commit. -/
def SAVE_CACHE_INV_FREQ : Nat := 50

/-- Mirrors `CORE_STREAM_REGEX` (line 16). -/
def CORE_STREAM_REGEX : String := "Core::Stream"

/-- Mirrors `CORE_FILE_REGEX` (line 17). -/
def CORE_FILE_REGEX : String := "(CFile|Core::File)([&>]|::(open|construct))"

/-- Mirrors `AK_STREAM_REGEX` (line 18). -/
def AK_STREAM_REGEX : String :=
  "(Input|Output|(Circular|)Duplex|Constrained|Reconsumable)(Bit|File|Memory|)Stream"

/-- Mirrors `C_FILE_REGEX` (line 19); the Python literal `"fopen\\("` denotes
the text `fopen\(`, as does the Lean literal below. -/
def C_FILE_REGEX : String := "fopen\\(|fdopen\\(|FILE\\*"

/-- Mirrors `CORE_STREAM_IGNORED_FILES` (line 21). -/
def CORE_STREAM_IGNORED_FILES : List String := ["Tests/LibCore/TestLibCoreStream.cpp"]

/-- Mirrors `CORE_FILE_IGNORED_FILES` (line 22). -/
def CORE_FILE_IGNORED_FILES : List String := ["Tests/LibCore/TestLibCoreIODevice.cpp"]

/-- Mirrors `AK_STREAM_IGNORED_FILES` (line 23). -/
def AK_STREAM_IGNORED_FILES : List String :=
  ["AK", "Tests/AK/*Stream.cpp", "Userland/Libraries/LibCore/FileStream.h"]

/-- Mirrors `C_FILE_IGNORED_FILES` (line 24). -/
def C_FILE_IGNORED_FILES : List String :=
  ["Userland/Libraries/LibC", "Libraries/LibC", "LibC", "Tests/LibC", "Ports",
   "*.sh", "*.py", "*.md", "*.yml"]

/-- The argv list that `determine_commit_and_date_list` (lines 33-51) passes to
`subprocess.run`. In the source, the f-string on line 43 and the literal
`"origin/master"` on line 44 are adjacent string literals with no comma between
them, so Python concatenates them into one argument: the branch name ends up
appended to the `-G` pattern instead of being a separate revision argument.
Note also that `CORE_FILE_REGEX` is interpolated twice in the f-string. -/
def gitLogArgs : List String :=
  ["git", "-C", SERENITY_DIR, "log",
   "-G" ++ CORE_STREAM_REGEX ++ "|" ++ CORE_FILE_REGEX ++ "|" ++ AK_STREAM_REGEX
     ++ "|" ++ CORE_FILE_REGEX ++ "|" ++ C_FILE_REGEX ++ "origin/master",
   "--reverse", "--format=%H %ct"]

/-- The combined search expression the spec describes: the logical OR of all
four category patterns, each appearing once. Stated from the words of the
spec (section 4.2) for comparison with the argument actually built by
`gitLogArgs`. -/
def combinedRegexOnceEach : String :=
  CORE_STREAM_REGEX ++ "|" ++ CORE_FILE_REGEX ++ "|" ++ AK_STREAM_REGEX ++ "|" ++ C_FILE_REGEX

/-- Splits a character list at every character satisfying `p`, keeping empty
segments, exactly like Python `str.split(sep)` for a one-character separator
(when `p` tests equality with that separator). `splitPred p []` is `[[]]`,
matching Python `"".split(sep) == [""]`. -/
def splitPred (p : Char → Bool) : List Char → List (List Char)
  | [] => [[]]
  | c :: cs =>
    let r := splitPred p cs
    if p c then [] :: r else (c :: r.headD []) :: r.tail

/-- Python `s.split(sep)` for the one-character separators used by the script
(`"\n"`, `" "`, `":"`). -/
def pySplit (sep : Char) (s : String) : List String :=
  (splitPred (fun c => c = sep) s.data).map String.mk

/-- Python `s.split()` with no argument: split on runs of whitespace,
discarding empty fields. Used only to state the claim about lines with a
number of whitespace-separated fields other than two. -/
def pySplitWs (s : String) : List String :=
  ((splitPred Char.isWhitespace s.data).filter (fun w => w ≠ [])).map String.mk

/-- Python `str.strip()` with no argument: drop whitespace from both ends. -/
def pyStrip (cs : List Char) : List Char :=
  ((cs.dropWhile Char.isWhitespace).reverse.dropWhile Char.isWhitespace).reverse

/-- Decimal value of a digit list. -/
def digitsVal (cs : List Char) : Nat :=
  cs.foldl (fun n c => n * 10 + (c.toNat - 48)) 0

/-- Python `int(s)`: strips surrounding whitespace, accepts an optional sign
followed by a nonempty run of decimal digits, raises `ValueError` (here:
`none`) otherwise. (Digit grouping with underscores is omitted; no input in
any theorem uses it.) -/
def pyInt (s : String) : Option Int :=
  match pyStrip s.data with
  | '+' :: rest =>
    if rest ≠ [] ∧ rest.all Char.isDigit then some (Int.ofNat (digitsVal rest)) else none
  | '-' :: rest =>
    if rest ≠ [] ∧ rest.all Char.isDigit then some (-(Int.ofNat (digitsVal rest))) else none
  | rest =>
    if rest ≠ [] ∧ rest.all Char.isDigit then some (Int.ofNat (digitsVal rest)) else none

/-- The parsing loop of `determine_commit_and_date_list` (lines 57-61): for
each line, `parts = line.split(" ")`, `assert len(parts) == 2`, then
`entries.append((parts[0], int(parts[1])))`. Lines are processed in order, so
the first failing line determines the raised error. -/
def parseLines : List String → Except PyError (List (String × Int))
  | [] => .ok []
  | line :: rest =>
    match pySplit ' ' line with
    | [h, t] =>
      match pyInt t with
      | some n => (parseLines rest).map (fun es => (h, n) :: es)
      | none => .error .valueError
    | _ => .error .assertionError

/-- The pure part of `determine_commit_and_date_list` (lines 52-62) as a
function of the captured stdout of the git log query:
`lines = result.stdout.split("\n")`; `assert lines[-1] == ""`; `lines.pop()`;
`assert lines[-1] != ""` (an `IndexError` when the popped list is empty);
then the per-line parsing loop. -/
def parseGitLog (stdout : String) : Except PyError (List (String × Int)) :=
  let lines := pySplit '\n' stdout
  if lines.getLastD "" ≠ "" then .error .assertionError
  else
    match lines.dropLast.getLast? with
    | none => .error .indexError
    | some l => if l = "" then .error .assertionError else parseLines lines.dropLast

/-- A finished external command: the exit code and captured stdout of a
`subprocess.run(..., capture_output=True, text=True)` call. -/
structure Subproc where
  exitcode : Int
  stdout : String

/-- Models `subprocess.run(..., check=True)` as used by `fetch_new` (line 30),
the checkout (line 108) and the gnuplot invocation (line 228): raise
`CalledProcessError` exactly when the command exits nonzero. -/
def subprocess_check (r : Subproc) : Except PyError Unit :=
  if r.exitcode = 0 then .ok () else .error .calledProcessError

/-- Mirrors `count_repo_occurrences` (lines 80-88) as a function of the
finished `git grep -wE` subprocess. The source passes no `check=True` and
never reads `result.returncode`; it splits stdout on newlines, asserts the
final element is empty, and returns `len(lines) - 1`. -/
def count_repo_occurrences (result : Subproc) : Except PyError Nat :=
  let lines := pySplit '\n' result.stdout
  if lines.getLastD "" = "" then .ok (lines.length - 1) else .error .assertionError

/-- Python `dict` insertion: an existing key keeps its position and gets the
new value, a new key is appended. -/
def pyDictInsert (d : List (String × String)) (k v : String) : List (String × String) :=
  if d.any (fun p => p.1 = k) then d.map (fun p => if p.1 = k then (k, v) else p)
  else d ++ [(k, v)]

/-- Models `dict(x.split(':') for x in lines[:-1])` (line 99): iterate over the
lines in order; a line whose split on `':'` does not have exactly two parts
makes `dict()` raise `ValueError`; otherwise the pair is inserted. -/
def buildDict (acc : List (String × String)) : List String → Except PyError (List (String × String))
  | [] => .ok acc
  | x :: rest =>
    match pySplit ':' x with
    | [k, v] => buildDict (pyDictInsert acc k v) rest
    | _ => .error .valueError

/-- Stable insertion, descending by `key`, of `a` into an already sorted list:
`a` goes before the first element whose key is not greater, so elements with
equal keys keep their original relative order, like Python
`sorted(..., reverse=True)`. -/
def orderedInsertDesc (key : String × String → Int) (a : String × String) :
    List (String × String) → List (String × String)
  | [] => [a]
  | b :: bs => if key b ≤ key a then a :: b :: bs else b :: orderedInsertDesc key a bs

/-- Stable descending sort by `key`, modelling
`sorted(dictionary.items(), key=lambda x: int(x[1]), reverse=True)`. -/
def sortByKeyDesc (key : String × String → Int) : List (String × String) → List (String × String)
  | [] => []
  | a :: as => orderedInsertDesc key a (sortByKeyDesc key as)

/-- Mirrors `count_file_occurrences` (lines 91-100) as a function of the
finished `git grep -wcE` subprocess (exit code again unread): split stdout on
newlines, assert the final element is empty, build a dict from `x.split(':')`
over the remaining lines, then sort the items descending by `int(x[1])`
(`int` on a non-numeric count raises `ValueError`, checked for every item
before sorting since `sorted` evaluates the key on every element). -/
def count_file_occurrences (result : Subproc) : Except PyError (List (String × String)) :=
  let lines := pySplit '\n' result.stdout
  if lines.getLastD "" = "" then
    match buildDict [] lines.dropLast with
    | .error e => .error e
    | .ok d =>
      if d.all (fun p => (pyInt p.2).isSome) then
        .ok (sortByKeyDesc (fun p => (pyInt p.2).getD 0) d)
      else .error .valueError
  else .error .assertionError

/-- A per-category count tuple, the value stored in the cache for one commit:
`(stream_file, core_file, ak_stream, c_file)` (line 114). -/
abbrev Counts := Nat × Nat × Nat × Nat

/-- The in-memory cache: a Python dict from commit identifier to its count
tuple, modelled as an insertion-ordered association list with unique keys. -/
abbrev Cache := List (String × Counts)

/-- Dict access: `cache[k]` when `k in cache`, `none` otherwise. -/
def findVal (k : String) : Cache → Option Counts
  | [] => none
  | (k2, v) :: rest => if k = k2 then some v else findVal k rest

/-- JSON rendering of one count tuple under `indent=0` (each array element on
its own line, as `json.dump` emits for a non-`None` indent). -/
def countsJson : Counts → String
  | (a, b, c, d) =>
    "[\n" ++ toString a ++ ",\n" ++ toString b ++ ",\n" ++ toString c ++ ",\n"
      ++ toString d ++ "\n]"

/-- One serialized cache entry: the quoted key, the `":"` key separator from
`separators=",:"`, and the value array. Commit identifiers are hexadecimal,
so JSON string escaping never applies and is omitted. -/
def jsonItem (cache : Cache) (k : String) : String :=
  "\"" ++ k ++ "\":" ++ countsJson ((findVal k cache).getD (0, 0, 0, 0))

/-- Mirrors `save_cache` (lines 75-77): the byte content written by
`json.dump(cache, fp, sort_keys=True, separators=",:", indent=0)`. With
`sort_keys=True` the entries are emitted in ascending key order regardless of
dict insertion order; the item separator is `","` followed by the
`indent=0` newline. -/
def save_cache (cache : Cache) : String :=
  match List.insertionSort (fun a b => a ≤ b) (cache.map Prod.fst) with
  | [] => "\x7b\x7d"
  | ks => "\x7b\n" ++ String.intercalate ",\n" (ks.map (jsonItem cache)) ++ "\n\x7d"

/-- The persisted-cache environment `load_cache` runs in. `warm` is the
content of `cache.json` (`FILENAME_CACHE`) when that file exists. `cold`
models the read-only cold bootstrap snapshot that section 4.4 of the design
talks about; the source never reads or writes any such second file, and the
field exists only so that the claim about it can be stated. -/
structure CacheFS where
  warm : Option Cache
  cold : Option Cache
  deriving DecidableEq, Repr

/-- Mirrors `load_cache` (lines 65-72): if `cache.json` exists, return its
parsed content; otherwise print a message and return an empty dict. No file
is written in either branch, and `cold` is never consulted. -/
def load_cache (fs : CacheFS) : Cache × CacheFS :=
  match fs.warm with
  | some cache => (cache, fs)
  | none => ([], fs)

/-- One element of the dataset: the dict built at lines 125-133. -/
structure TaggedCommit where
  commit : String
  unix_timestamp : Int
  human_readable_time : String
  stream_file : Nat
  core_file : Nat
  ak_stream : Nat
  c_file : Nat
  deriving DecidableEq, Repr

/-- Models `datetime.datetime.fromtimestamp(date).strftime("%Y-%m-%d %H:%M:%S")`
(lines 122-124) abstractly as a rendering of the timestamp; no claim depends
on the concrete calendar format, only on the field being a function of the
date. -/
def human_readable_time (date : Int) : String := toString date

/-- The mutable state the scan threads through `lookup_commit`: the cache
dict plus explicit logs of the side effects performed, so that claims about
"no checkout", "no counter invocation" and "a flush occurred" are statable.
`saves` records each cache snapshot passed to `save_cache`, in order. -/
structure ScanState where
  cache : Cache
  checkouts : List String
  counterCalls : Nat
  saves : List Cache

/-- The happy-path external counter: given the commit the working tree is
checked out at, a regex and its ignored-files list, the count that
`count_repo_occurrences` reports. Modelling it as a total function is the
assumption that each `git grep` produced well-formed output; the error paths
of the counter are analysed separately on `count_repo_occurrences`. -/
abbrev GrepFn := String → String → List String → Nat

/-- Mirrors `lookup_commit` (lines 103-133). On a hit the stored tuple is
unpacked and no side effect happens. On a miss the commit is checked out,
the four categories are counted, the tuple is stored under the commit key
(appended, since the key is new), and the cache is saved if the new dict
length is a multiple of `SAVE_CACHE_INV_FREQ`. Either way the returned
record carries the commit, both timestamps and the four counts. -/
def lookup_commit (commit : String) (date : Int) (grep : GrepFn) (st : ScanState) :
    TaggedCommit × ScanState :=
  match findVal commit st.cache with
  | some (a, b, c, d) =>
    ({ commit := commit, unix_timestamp := date,
       human_readable_time := human_readable_time date,
       stream_file := a, core_file := b, ak_stream := c, c_file := d }, st)
  | none =>
    let stream_file := grep commit CORE_STREAM_REGEX CORE_STREAM_IGNORED_FILES
    let core_file := grep commit CORE_FILE_REGEX CORE_FILE_IGNORED_FILES
    let ak_stream := grep commit AK_STREAM_REGEX AK_STREAM_IGNORED_FILES
    let c_file := grep commit C_FILE_REGEX C_FILE_IGNORED_FILES
    let cache2 := st.cache ++ [(commit, (stream_file, core_file, ak_stream, c_file))]
    let saves2 :=
      if cache2.length % SAVE_CACHE_INV_FREQ = 0 then st.saves ++ [cache2] else st.saves
    ({ commit := commit, unix_timestamp := date,
       human_readable_time := human_readable_time date,
       stream_file := stream_file, core_file := core_file,
       ak_stream := ak_stream, c_file := c_file },
     { cache := cache2, checkouts := st.checkouts ++ [commit],
       counterCalls := st.counterCalls + 4, saves := saves2 })

/-- The list comprehension of `run` (lines 271-273): `lookup_commit` over the
enumerated commits in order, threading the cache state. -/
def scanCommits (grep : GrepFn) : List (String × Int) → ScanState → List TaggedCommit × ScanState
  | [], st => ([], st)
  | (c, d) :: rest, st =>
    let p := lookup_commit c d grep st
    let q := scanCommits grep rest p.2
    (p.1 :: q.1, q.2)

/-- The scanning portion of `run` (lines 264-274) as a function of the git log
stdout and the loaded initial state: parse the commit list, access
`commits_and_dates[-1][1]` for the startup message (an `IndexError` on an
empty list, line 268), scan every commit, then `save_cache(cache)`
unconditionally (line 274, recorded as a final element of `saves`). -/
def runScan (grep : GrepFn) (stdout : String) (st : ScanState) :
    Except PyError (List TaggedCommit × ScanState) :=
  match parseGitLog stdout with
  | .error e => .error e
  | .ok entries =>
    match entries.getLast? with
    | none => .error .indexError
    | some _ =>
      let p := scanCommits grep entries st
      .ok (p.1, { p.2 with saves := p.2.saves ++ [p.2.cache] })

/-- A trivial counter used for concrete witness inputs. -/
def grep0 : GrepFn := fun _ _ _ => 0

/-- The scan state at the start of a run with no prior cache. -/
def stEmpty : ScanState := { cache := [], checkouts := [], counterCalls := 0, saves := [] }

/-- A scan state whose loaded cache already holds 49 commits (keys "0".."48"),
with no save performed yet. -/
def st49 : ScanState :=
  { cache := (List.range 49).map (fun i => (Nat.repr i, (0, 0, 0, 0))),
    checkouts := [], counterCalls := 0, saves := [] }

/-- A scan state whose cache already holds the commit "abc", for the
memoization witness. -/
def st1 : ScanState :=
  { cache := [("abc", (1, 2, 3, 4))], checkouts := [], counterCalls := 0, saves := [] }

/-- A two-entry cache, for the determinism witness. -/
def cacheA : Cache := [("bb", (1, 2, 3, 4)), ("aa", (5, 6, 7, 8))]

/-- The same mapping as `cacheA` with the two entries inserted in the other
order. -/
def cacheB : Cache := [("aa", (5, 6, 7, 8)), ("bb", (1, 2, 3, 4))]

/-- Claim C1: for every commit whose identifier is already a key of the cache
mapping, lookup_commit does not invoke the counter and does not perform a
checkout (the entire scan state, including the effect logs, is returned
unchanged) and the record carries the stored per-category tuple unchanged as
its counts. -/
theorem c1_lookup_commit_hit (commit : String) (date : Int) (grep : GrepFn)
    (st : ScanState) (t : Counts) (h : findVal commit st.cache = some t) :
    lookup_commit commit date grep st =
      ({ commit := commit, unix_timestamp := date,
         human_readable_time := human_readable_time date,
         stream_file := t.1, core_file := t.2.1, ak_stream := t.2.2.1,
         c_file := t.2.2.2 }, st) := by
  obtain ⟨a, b, c, d⟩ := t
  simp [lookup_commit, h]

/-- Witness for C1 at a concrete cached commit. -/
theorem c1_lookup_commit_hit_witness :
    lookup_commit "abc" 7 grep0 st1 =
      ({ commit := "abc", unix_timestamp := 7,
         human_readable_time := human_readable_time 7,
         stream_file := 1, core_file := 2, ak_stream := 3, c_file := 4 }, st1) :=
  c1_lookup_commit_hit "abc" 7 grep0 st1 (1, 2, 3, 4) rfl

/-- Claim C4 counterexample: in a state where only the cold snapshot exists
(no warm cache.json), load_cache returns the empty mapping rather than the
snapshot, and persists nothing: the claim that it returns the cold snapshot
and writes a warm copy of it is false at this input. -/
theorem c4_load_cache_counterexample :
    load_cache { warm := none, cold := some [("a", (1, 2, 3, 4))] } =
      ([], { warm := none, cold := some [("a", (1, 2, 3, 4))] }) ∧
    ¬ ((load_cache { warm := none, cold := some [("a", (1, 2, 3, 4))] }).1
         = [("a", (1, 2, 3, 4))] ∧
       (load_cache { warm := none, cold := some [("a", (1, 2, 3, 4))] }).2.warm
         = some [("a", (1, 2, 3, 4))]) := by
  exact ⟨rfl, by decide⟩

/-- Claim C4 amended: load_cache returns the warm cache.json mapping when that
file exists and the empty mapping otherwise; it never consults a cold
bootstrap snapshot and never persists anything (the file state is returned
unchanged in both branches). -/
theorem c4_load_cache_amended (fs : CacheFS) :
    load_cache fs = (fs.warm.getD [], fs) := by
  cases fs with
  | mk warm cold => cases warm <;> rfl

/-- Claim C5 counterexample: when the repository query returns zero commit
lines (empty stdout), the scan does not produce an empty dataset; it raises
an IndexError (from the assert lines[-1] check indexing an empty list)
already inside the enumerator. -/
theorem c5_empty_enumeration_counterexample :
    runScan grep0 "" stEmpty = .error .indexError := rfl

/-- Claim C5 amended: if the commit enumerator receives zero commits (empty
repository-query output), the scan aborts with an IndexError instead of
running through and producing an empty dataset: line 55 of the source indexes
the popped (now empty) line list, and line 268 would likewise index the empty
commit list. -/
theorem c5_empty_enumeration_amended (grep : GrepFn) (st : ScanState) :
    runScan grep "" st = .error .indexError := rfl

/-- Claim C6: evaluation of the argument list the enumerator passes to the
repository interface. It is a single query, but the search expression
contains CORE_FILE_REGEX twice, and the branch name "origin/master" is not a
separate revision argument: the missing comma between the adjacent string
literals on source lines 43-44 concatenates it onto the -G pattern argument.
The --reverse flag requesting ascending order is passed as claimed. -/
theorem c6_git_log_query_eval :
    gitLogArgs.length = 7 ∧ "--reverse" ∈ gitLogArgs ∧
    "origin/master" ∉ gitLogArgs ∧
    gitLogArgs.getD 4 "" ≠ "-G" ++ combinedRegexOnceEach ∧
    gitLogArgs.getD 4 "" =
      "-G" ++ CORE_STREAM_REGEX ++ "|" ++ CORE_FILE_REGEX ++ "|" ++ AK_STREAM_REGEX
        ++ "|" ++ CORE_FILE_REGEX ++ "|" ++ C_FILE_REGEX ++ "origin/master" := by
  refine ⟨rfl, by decide, by decide, by decide, rfl⟩

/-- Claim C9 counterexample: a pattern-search invocation that reports a
failing exit status (here 2) with empty output is neither an abort nor a
printed warning: count_repo_occurrences never reads the exit code and
returns the default count 0. -/
theorem c9_swallowed_grep_failure_counterexample :
    count_repo_occurrences { exitcode := 2, stdout := "" } = .ok 0 ∧ (2 : Int) ≠ 0 :=
  ⟨rfl, by decide⟩

/-- Claim C9 amended: the external calls made with check=True (fetch,
checkout, gnuplot) abort on a failing exit status, but the two pattern-search
helpers ignore the exit status entirely: their result depends only on the
captured stdout, so a failed search with empty output silently yields the
default count 0 / empty listing. -/
theorem c9_error_propagation_amended :
    (∀ r : Subproc, r.exitcode ≠ 0 → subprocess_check r = .error .calledProcessError) ∧
    (∀ r : Subproc,
      count_repo_occurrences r = count_repo_occurrences { exitcode := 0, stdout := r.stdout }) ∧
    (∀ r : Subproc,
      count_file_occurrences r = count_file_occurrences { exitcode := 0, stdout := r.stdout }) := by
  refine ⟨?_, fun r => rfl, fun r => rfl⟩
  intro r h
  simp [subprocess_check, h]

/-- Witness for the amended C9 at a concrete failing checkout. -/
theorem c9_error_propagation_amended_witness :
    subprocess_check { exitcode := 2, stdout := "" } = .error .calledProcessError :=
  c9_error_propagation_amended.1 { exitcode := 2, stdout := "" } (by decide)

/-- Claim C2 counterexample: starting from a loaded cache of 49 entries with
no save yet performed, scanning a single commit that is not in the cache (one
newly computed commit, far fewer than the batch size 50) already triggers a
flush, because the source flushes when the total dict length is a multiple of
SAVE_CACHE_INV_FREQ, not after a count of cache misses. -/
theorem c2_flush_counterexample :
    findVal "c0" st49.cache = none ∧ st49.cache.length = 49 ∧ st49.saves = [] ∧
    (scanCommits grep0 [("c0", 5)] st49).2.saves.length = 1 := by
  refine ⟨by decide, by decide, rfl, by decide⟩

/-- Claim C2 amended: during the scan, a flush happens on a newly computed
commit exactly when the total number of cache entries after the insertion
(entries loaded from disk plus entries computed so far) is divisible by the
batch size SAVE_CACHE_INV_FREQ = 50; this coincides with "after exactly 50
cache misses" only when the loaded cache size is itself a multiple of 50
(for example, empty). After the full pass the cache is persisted
unconditionally: on every successful run the last recorded save is the final
cache, regardless of how many commits were computed since the last flush. -/
theorem c2_flush_cadence_amended :
    (∀ (commit : String) (date : Int) (grep : GrepFn) (st : ScanState),
      findVal commit st.cache = none →
        (lookup_commit commit date grep st).2.saves =
          (if (st.cache.length + 1) % SAVE_CACHE_INV_FREQ = 0
           then st.saves ++ [(lookup_commit commit date grep st).2.cache]
           else st.saves)) ∧
    (∀ (grep : GrepFn) (stdout : String) (st : ScanState)
      (recs : List TaggedCommit) (st2 : ScanState),
        runScan grep stdout st = .ok (recs, st2) →
          st2.saves.getLast? = some st2.cache) := by
  constructor
  · intro commit date grep st h
    simp [lookup_commit, h]
  · intro grep stdout st recs st2 h
    unfold runScan at h
    cases hp : parseGitLog stdout with
    | error e => rw [hp] at h; cases h
    | ok entries =>
      rw [hp] at h
      dsimp only at h
      cases hl : entries.getLast? with
      | none => rw [hl] at h; cases h
      | some x =>
        rw [hl] at h
        dsimp only at h
        have h2 := (Prod.mk.inj (Except.ok.inj h)).2
        subst h2
        simp

/-- Witness for the amended C2 at a concrete cache miss. -/
theorem c2_flush_cadence_amended_witness :
    (lookup_commit "c" 0 grep0 stEmpty).2.saves =
      (if (stEmpty.cache.length + 1) % SAVE_CACHE_INV_FREQ = 0
       then stEmpty.saves ++ [(lookup_commit "c" 0 grep0 stEmpty).2.cache]
       else stEmpty.saves) :=
  c2_flush_cadence_amended.1 "c" 0 grep0 stEmpty rfl

/-- Lookup in an association list with duplicate-free keys is invariant under
permutation of its entries. -/
theorem findVal_perm (k : String) :
    ∀ {c1 c2 : Cache}, c1.Perm c2 → (c1.map Prod.fst).Nodup →
      findVal k c1 = findVal k c2 := by
  intro c1 c2 hp
  induction hp with
  | nil => intro _; rfl
  | cons x h ih =>
    intro hn
    obtain ⟨kx, vx⟩ := x
    simp only [List.map_cons, List.nodup_cons] at hn
    by_cases hk : k = kx
    · simp [findVal, hk]
    · simp [findVal, hk, ih hn.2]
  | swap x y l =>
    intro hn
    obtain ⟨kx, vx⟩ := x
    obtain ⟨ky, vy⟩ := y
    simp only [List.map_cons, List.nodup_cons, List.mem_cons] at hn
    have hyx : ky ≠ kx := fun hc => hn.1 (Or.inl hc)
    by_cases h1 : k = ky
    · subst h1
      simp [findVal, hyx]
    · by_cases h2 : k = kx
      · subst h2
        simp [findVal, h1]
      · simp [findVal, h1, h2]
  | trans h1 h2 ih1 ih2 =>
    intro hn
    exact (ih1 hn).trans (ih2 ((h1.map Prod.fst).nodup hn))

/-- Claim C3: for every cache mapping with duplicate-free keys, serializing it
twice with save_cache produces byte-identical output, and the output is
independent of the insertion order of the entries (any permutation of the
same mapping serializes to the same bytes, thanks to sort_keys=True). -/
theorem c3_save_cache_deterministic (c1 c2 : Cache) (hp : c1.Perm c2)
    (hn : (c1.map Prod.fst).Nodup) :
    save_cache c1 = save_cache c1 ∧ save_cache c1 = save_cache c2 := by
  refine ⟨rfl, ?_⟩
  have hks : List.insertionSort (fun a b => a ≤ b) (c1.map Prod.fst)
      = List.insertionSort (fun a b => a ≤ b) (c2.map Prod.fst) := by
    refine List.eq_of_perm_of_sorted
      ((List.perm_insertionSort _ _).trans
        ((hp.map Prod.fst).trans (List.perm_insertionSort _ _).symm))
      (List.sorted_insertionSort _ _) (List.sorted_insertionSort _ _)
  have hfv : ∀ x, findVal x c1 = findVal x c2 := fun x => findVal_perm x hp hn
  have hitem : ∀ ks : List String, ks.map (jsonItem c1) = ks.map (jsonItem c2) :=
    fun ks => List.map_congr_left (fun x _ => by unfold jsonItem; rw [hfv x])
  unfold save_cache
  rw [hks]
  cases List.insertionSort (fun a b => a ≤ b) (c2.map Prod.fst) with
  | nil => rfl
  | cons k ks =>
    dsimp only
    rw [hitem (k :: ks)]

/-- Witness for C3 on a concrete two-entry mapping and its reordering. -/
theorem c3_save_cache_deterministic_witness :
    save_cache cacheA = save_cache cacheA ∧ save_cache cacheA = save_cache cacheB :=
  c3_save_cache_deterministic cacheA cacheB (by decide) (by decide)

/-- If some line of the enumerator output does not split on single spaces
into exactly two fields, the per-line loop raises: either the assert on that
line fires, or int() on an earlier line raises ValueError first. -/
theorem parseLines_error :
    ∀ {ls : List String}, (∃ l ∈ ls, (pySplit ' ' l).length ≠ 2) →
      ∃ e, parseLines ls = .error e := by
  intro ls
  induction ls with
  | nil =>
    intro h
    obtain ⟨l, hl, -⟩ := h
    cases hl
  | cons x rest ih =>
    intro h
    obtain ⟨l, hl, hlen⟩ := h
    cases hx : pySplit ' ' x with
    | nil => exact ⟨.assertionError, by simp [parseLines, hx]⟩
    | cons a as =>
      cases as with
      | nil => exact ⟨.assertionError, by simp [parseLines, hx]⟩
      | cons b bs =>
        cases bs with
        | cons c cs => exact ⟨.assertionError, by simp [parseLines, hx]⟩
        | nil =>
          have hrest : ∃ l ∈ rest, (pySplit ' ' l).length ≠ 2 := by
            rcases List.mem_cons.mp hl with rfl | hmem
            · exact absurd (by simp [hx]) hlen
            · exact ⟨l, hmem, hlen⟩
          obtain ⟨e, he⟩ := ih hrest
          cases hint : pyInt b with
          | none => exact ⟨.valueError, by simp [parseLines, hx, hint]⟩
          | some n => exact ⟨e, by simp [parseLines, Except.map, hx, hint, he]⟩

/-- Claim C7 counterexample: the line of "x\ty 5\n" has three
whitespace-separated fields, not two, yet the enumerator does not fail in any
way: the source splits on single space characters only, so the tab survives
inside the first field and a full (bogus) record list is returned. -/
theorem c7_malformed_output_counterexample :
    (pySplitWs "x\ty 5").length ≠ 2 ∧
    parseGitLog "x\ty 5\n" = .ok [("x\ty", 5)] := by
  exact ⟨by decide, rfl⟩

/-- Claim C7 amended: for every repository-query output whose final line is
non-empty, or that contains a line which does not split into exactly two
fields when split on single space characters (the separator the source
actually uses), the enumerator aborts with a fatal uncaught error - an
assertion failure, or a ValueError when int() rejects the second field of an
earlier line - rather than skipping the offending record or returning a
partial list. -/
theorem c7_malformed_output_amended (s : String)
    (h : (pySplit '\n' s).getLastD "" ≠ "" ∨
         ∃ l ∈ (pySplit '\n' s).dropLast, (pySplit ' ' l).length ≠ 2) :
    ∃ e, parseGitLog s = .error e := by
  unfold parseGitLog
  by_cases hlast : (pySplit '\n' s).getLastD "" ≠ ""
  · rw [if_pos hlast]
    exact ⟨.assertionError, rfl⟩
  · rw [if_neg hlast]
    have hbad := h.resolve_left hlast
    obtain ⟨l, hl, hlen⟩ := hbad
    cases hgl : (pySplit '\n' s).dropLast.getLast? with
    | none => exact ⟨.indexError, rfl⟩
    | some l2 =>
      dsimp only
      by_cases h2 : l2 = ""
      · rw [if_pos h2]
        exact ⟨.assertionError, rfl⟩
      · rw [if_neg h2]
        exact parseLines_error ⟨l, hl, hlen⟩

/-- Witness for the amended C7 on a one-field line. -/
theorem c7_malformed_output_amended_witness :
    ∃ e, parseGitLog "x\n" = .error e :=
  c7_malformed_output_amended "x\n" (Or.inr ⟨"x", by decide, by decide⟩)

/-- The scan returns one record per enumerated commit, in order, tagged with
exactly the enumerated identifier and timestamp. -/
theorem scanCommits_fields (grep : GrepFn) :
    ∀ (entries : List (String × Int)) (st : ScanState),
      ((scanCommits grep entries st).1).map (fun r => (r.commit, r.unix_timestamp))
        = entries := by
  intro entries
  induction entries with
  | nil => intro st; rfl
  | cons e rest ih =>
    intro st
    obtain ⟨c, d⟩ := e
    simp only [scanCommits, List.map_cons, ih]
    refine congrArg (fun p => p :: rest) ?_
    unfold lookup_commit
    cases h : findVal c st.cache with
    | some t =>
      obtain ⟨a, b, cc, dd⟩ := t
      rfl
    | none => rfl

/-- Claim C8 amended: for every commit list handed to the scan, the dataset
has one record per commit, in the same order, carrying exactly the enumerated
identifiers and timestamps; consequently it is sorted strictly ascending by
timestamp whenever the enumerated list is. The scanner preserves but does not
enforce chronological order - that order comes from the external git log
--reverse query. -/
theorem c8_dataset_shape_amended (grep : GrepFn) (entries : List (String × Int))
    (st : ScanState) :
    (scanCommits grep entries st).1.length = entries.length ∧
    ((scanCommits grep entries st).1).map (fun r => (r.commit, r.unix_timestamp))
      = entries ∧
    (List.Pairwise (fun a b => a < b) (entries.map Prod.snd) →
      List.Pairwise (fun a b => a < b)
        (((scanCommits grep entries st).1).map (fun r => r.unix_timestamp))) := by
  have hf := scanCommits_fields grep entries st
  have hts : ((scanCommits grep entries st).1).map (fun r => r.unix_timestamp)
      = entries.map Prod.snd := by
    conv_rhs => rw [← hf]
    rw [List.map_map]
    rfl
  refine ⟨?_, hf, ?_⟩
  · have := congrArg List.length hf
    rwa [List.length_map] at this
  · intro hs
    rwa [hts]

/-- Witness for the amended C8 on a two-commit ascending list. -/
theorem c8_dataset_shape_amended_witness :
    List.Pairwise (fun a b => a < b)
      (((scanCommits grep0 [("a", 1), ("b", 2)] stEmpty).1).map
        (fun r => r.unix_timestamp)) :=
  (c8_dataset_shape_amended grep0 [("a", 1), ("b", 2)] stEmpty).2.2 (by decide)

/-- Claim C8 counterexample: a well-formed repository-query output whose
timestamps are not ascending is accepted unchanged by the enumerator, and the
scan then produces a dataset that is not sorted by timestamp: nothing in the
code sorts or checks the order. -/
theorem c8_dataset_order_counterexample :
    parseGitLog "a 5\nb 3\n" = .ok [("a", 5), ("b", 3)] ∧
    ¬ List.Pairwise (fun a b => a < b)
        (((scanCommits grep0 [("a", 5), ("b", 3)] stEmpty).1).map
          (fun r => r.unix_timestamp)) := by
  exact ⟨rfl, by decide⟩

/-- If some line fed to dict() does not split on the colon into exactly two
parts, the dict construction raises ValueError at the first such line. -/
theorem buildDict_error :
    ∀ {xs : List String}, (∃ l ∈ xs, (pySplit ':' l).length ≠ 2) →
      ∀ acc, ∃ e, buildDict acc xs = .error e := by
  intro xs
  induction xs with
  | nil =>
    intro h
    obtain ⟨l, hl, -⟩ := h
    cases hl
  | cons x rest ih =>
    intro h acc
    obtain ⟨l, hl, hlen⟩ := h
    cases hx : pySplit ':' x with
    | nil => exact ⟨.valueError, by simp [buildDict, hx]⟩
    | cons a as =>
      cases as with
      | nil => exact ⟨.valueError, by simp [buildDict, hx]⟩
      | cons b bs =>
        cases bs with
        | cons c cs => exact ⟨.valueError, by simp [buildDict, hx]⟩
        | nil =>
          have hrest : ∃ l ∈ rest, (pySplit ':' l).length ≠ 2 := by
            rcases List.mem_cons.mp hl with rfl | hmem
            · exact absurd (by simp [hx]) hlen
            · exact ⟨l, hmem, hlen⟩
          obtain ⟨e, he⟩ := ih hrest (pyDictInsert acc a b)
          exact ⟨e, by simp [buildDict, hx, he]⟩

/-- Claim C10: for every per-file pattern-search output in which some
non-final line does not split on the colon into exactly two parts (that is,
does not contain exactly one colon separator, for example a matched path that
itself contains a colon), count_file_occurrences raises an exception instead
of returning a listing - regardless of the exit code of the search. -/
theorem c10_count_file_bad_colon (code : Int) (s : String)
    (h : ∃ l ∈ (pySplit '\n' s).dropLast, (pySplit ':' l).length ≠ 2) :
    ∃ e, count_file_occurrences { exitcode := code, stdout := s } = .error e := by
  unfold count_file_occurrences
  by_cases hlast : (pySplit '\n' s).getLastD "" = ""
  · obtain ⟨e, he⟩ := buildDict_error h []
    refine ⟨e, ?_⟩
    rw [if_pos hlast, he]
  · rw [if_neg hlast]
    exact ⟨.assertionError, rfl⟩

/-- Witness for C10 on a line with two colons. -/
theorem c10_count_file_bad_colon_witness :
    ∃ e, count_file_occurrences { exitcode := 0, stdout := "a:b:c\n" } = .error e :=
  c10_count_file_bad_colon 0 "a:b:c\n" ⟨"a:b:c", by decide, by decide⟩

end UpdateCounts
